import Mathlib

/-!
A shallow embedding of the mysensors-prom gateway core (Go) in Lean 4,
with theorems checking the natural-language specification against it.

Embedded source files:
* `message.go` — wire codec (`Message`, `Marshal`, `Unmarshal`);
* `sensors.go` (unnamed part_002) — `Network`/`Node`/`Sensor`/`Var` model,
  `NextNodeID`, `LoadJson`;
* `handle.go` — the `Handler` readiness state machine.

Go `uint8` values are modelled as `Nat` together with `< 256` bounds where
they matter; wire bytes are modelled as `String`/`List Char`; Go functions
returning `error` become `Option`/`Except`-valued Lean functions (`none` /
`.error` is the error path); `panic` paths (failed type assertions, slice
index overflows in enum `String()` tables) are modelled as `none`.
-/

namespace MySensors

/-! ### Wire codec: message.go -/

/-- Go `MsgType` constants (`uint8`). -/
def MsgPresentation : Nat := 0
def MsgSet : Nat := 1
def MsgReq : Nat := 2
def MsgInternal : Nat := 3
def MsgStream : Nat := 4

/-- The dynamic value of the Go `SubType` interface: one of the three
enumeration types, each carrying its numeric (`uint8`) value. -/
inductive SubTypeVal where
  | pres (v : Nat)
  | setReq (v : Nat)
  | internal (v : Nat)
  deriving DecidableEq, Repr

/-- Go `SubType.Value()`: the numeric value of the subtype. -/
def SubTypeVal.value : SubTypeVal → Nat
  | .pres v => v
  | .setReq v => v
  | .internal v => v

/-- Go `Message` struct.  `SubType` is an interface and may be nil (`none`). -/
structure Message where
  NodeID : Nat
  ChildSensorID : Nat
  type : Nat
  Ack : Nat
  SubType : Option SubTypeVal
  Payload : String
  deriving DecidableEq, Repr

/-- The subtype field as printed by `fmt.Sprintf("%d", m.SubType)`:
the decimal value of the dynamic enum, or Go fmt's nil-interface notice. -/
def subTypeField : Option SubTypeVal → String
  | some st => toString st.value
  | none => "%!d(<nil>)"

/-- Go `Message.Marshal`:
`fmt.Sprintf("%d;%d;%d;%d;%d;%s\n", NodeID, ChildSensorID, Type, Ack, SubType, Payload)`. -/
def Message.Marshal (m : Message) : String :=
  toString m.NodeID ++ ";" ++ toString m.ChildSensorID ++ ";" ++
  toString m.type ++ ";" ++ toString m.Ack ++ ";" ++
  subTypeField m.SubType ++ ";" ++ m.Payload ++ "\x0a"

/-- Decimal digit value of a character, if it is a digit. -/
def digitVal (c : Char) : Option Nat :=
  if '0' ≤ c ∧ c ≤ '9' then some (c.toNat - '0'.toNat) else none

/-- Accumulating decimal parse; fails on the first non-digit. -/
def parseDigitsAux : List Char → Nat → Option Nat
  | [], acc => some acc
  | c :: cs, acc =>
    match digitVal c with
    | some d => parseDigitsAux cs (acc * 10 + d)
    | none => none

/-- Parse a non-empty all-digit string to its value. -/
def parseDigits : List Char → Option Nat
  | [] => none
  | c :: cs => parseDigitsAux (c :: cs) 0

/-- The largest `int64` value, `strconv.Atoi`'s positive range bound on a
64-bit platform. -/
def int64Max : Nat := 2 ^ 63 - 1

/-- Model of Go `strconv.Atoi` (= `ParseInt(s, 10, 0)`) on a 64-bit platform:
optional single sign, then one or more decimal digits; errors on an empty
string, any other character, and values outside the `int64` range. -/
def goAtoi (s : String) : Option Int :=
  match s.data with
  | [] => none
  | c :: cs =>
    if c = '+' then
      (parseDigits cs).bind fun n =>
        if n ≤ int64Max then some (n : Int) else none
    else if c = '-' then
      (parseDigits cs).bind fun n =>
        if n ≤ int64Max + 1 then some (-(n : Int)) else none
    else
      (parseDigits (c :: cs)).bind fun n =>
        if n ≤ int64Max then some (n : Int) else none

/-- Go conversion `uint8(i)` of a (possibly negative) integer: the low 8
bits, i.e. the value modulo 256. -/
def toUint8 (i : Int) : Nat := (i % 256).toNat

/-- Split off everything before the first occurrence of `sep`, if any. -/
def splitFirst (sep : Char) : List Char → Option (List Char × List Char)
  | [] => none
  | c :: cs =>
    if c = sep then some ([], cs)
    else
      match splitFirst sep cs with
      | none => none
      | some (a, b) => some (c :: a, b)

/-- Model of Go `strings.SplitN(s, sep, n)` for `n ≥ 0` on character lists:
at most `n` pieces, the last piece being the unsplit remainder. -/
def splitNChars (sep : Char) : Nat → List Char → List (List Char)
  | 0, _ => []
  | 1, cs => [cs]
  | n + 2, cs =>
    match splitFirst sep cs with
    | none => [cs]
    | some (a, b) => a :: splitNChars sep (n + 1) b

/-- Model of `strings.TrimSuffix(s, "\x0a")`: drop one trailing line feed. -/
def trimNewline (cs : List Char) : List Char :=
  if cs.getLast? = some '\x0a' then cs.dropLast else cs

/-- Go `Message.Unmarshal` on receiver state `m` and wire bytes `b`.  Returns
`none` on the Go error path (the caller's partially-mutated receiver is not
modelled; no caller uses it).  The subtype field is re-interpreted according
to the already-parsed `Type`; an unknown `Type` leaves `SubType` as it was
in the receiver. -/
def Message.Unmarshal (m : Message) (b : String) : Option Message :=
  match splitNChars ';' 6 (trimNewline b.data) with
  | [p0, p1, p2, p3, p4, p5] =>
    match goAtoi (String.mk p0) with
    | none => none
    | some nodeID =>
      match goAtoi (String.mk p1) with
      | none => none
      | some childSensorID =>
        match goAtoi (String.mk p2) with
        | none => none
        | some mType =>
          match goAtoi (String.mk p3) with
          | none => none
          | some ack =>
            match goAtoi (String.mk p4) with
            | none => none
            | some subType =>
              let t := toUint8 mType
              let st : Option SubTypeVal :=
                if t = MsgPresentation then some (.pres (toUint8 subType))
                else if t = MsgSet ∨ t = MsgReq then
                  some (.setReq (toUint8 subType))
                else if t = MsgInternal then
                  some (.internal (toUint8 subType))
                else m.SubType
              some { NodeID := toUint8 nodeID,
                     ChildSensorID := toUint8 childSensorID,
                     type := t, Ack := toUint8 ack,
                     SubType := st, Payload := String.mk p5 }
  | _ => none

/-- A fresh Go `&Message{}` (all fields zero, nil `SubType`), the receiver
`Unmarshal` is called on by the link reader and by `Copy`. -/
def freshMessage : Message :=
  { NodeID := 0, ChildSensorID := 0, type := 0, Ack := 0,
    SubType := none, Payload := "" }

/-- Go `Message.Copy`: marshal then unmarshal into a fresh message (`none`
models the `panic(err)` on the unmarshal-error path). -/
def Message.Copy (m : Message) : Option Message :=
  freshMessage.Unmarshal m.Marshal

/-! ### Codec lemmas -/

theorem string_data_append (s t : String) : (s ++ t).data = s.data ++ t.data := rfl

theorem string_mk_data (s : String) : String.mk s.data = s := rfl

theorem semi_data : (";" : String).data = [';'] := rfl

theorem nl_data : ("\x0a" : String).data = ['\x0a'] := rfl

theorem splitFirst_not_mem {sep : Char} {a : List Char} (h : sep ∉ a) :
    splitFirst sep a = none := by
  induction a with
  | nil => rfl
  | cons c cs ih =>
    have hc : ¬ c = sep := by rintro rfl; exact h (List.mem_cons_self _ _)
    have hcs : sep ∉ cs := fun hm => h (List.mem_cons_of_mem c hm)
    simp [splitFirst, hc, ih hcs]

theorem splitFirst_append {sep : Char} {a : List Char} (b : List Char) (h : sep ∉ a) :
    splitFirst sep (a ++ sep :: b) = some (a, b) := by
  induction a with
  | nil => simp [splitFirst]
  | cons c cs ih =>
    have hc : ¬ c = sep := by rintro rfl; exact h (List.mem_cons_self _ _)
    have hcs : sep ∉ cs := fun hm => h (List.mem_cons_of_mem c hm)
    simp [splitFirst, hc, ih hcs]

theorem splitNChars_cons (n : Nat) {a : List Char} (b : List Char) (h : ';' ∉ a) :
    splitNChars ';' (n + 2) (a ++ ';' :: b) = a :: splitNChars ';' (n + 1) b := by
  simp only [splitNChars, splitFirst_append b h]

theorem splitNChars_one (cs : List Char) : splitNChars ';' 1 cs = [cs] := rfl

theorem trimNewline_concat (cs : List Char) :
    trimNewline (cs ++ ['\x0a']) = cs := by
  simp [trimNewline]

set_option maxRecDepth 4000 in
/-- Decimal representations of `uint8` values parse back via `goAtoi`
and contain no separator character.  (All five integer fields of a
marshalled message are `uint8`-valued.) -/
theorem uint8_repr_fact : ∀ n : Nat, n < 256 →
    goAtoi (toString n) = some (n : Int) ∧ ';' ∉ (toString n).data := by decide

theorem toUint8_coe {n : Nat} (h : n < 256) : toUint8 (n : Int) = n := by
  unfold toUint8
  omega

/-- Splitting a marshalled message recovers the six fields, provided the
subtype field prints as a plain `uint8` decimal and the payload contains
no separator. -/
theorem splitN_marshal (m : Message) (v : Nat)
    (h1 : m.NodeID < 256) (h2 : m.ChildSensorID < 256)
    (h3 : m.type < 256) (h4 : m.Ack < 256) (hv : v < 256)
    (hsv : subTypeField m.SubType = toString v) :
    splitNChars ';' 6 (trimNewline (m.Marshal).data) =
      [(toString m.NodeID).data, (toString m.ChildSensorID).data,
       (toString m.type).data, (toString m.Ack).data,
       (toString v).data, m.Payload.data] := by
  have hmar : (m.Marshal).data =
      ((toString m.NodeID).data ++ ';' :: ((toString m.ChildSensorID).data ++ ';' ::
       ((toString m.type).data ++ ';' :: ((toString m.Ack).data ++ ';' ::
       ((toString v).data ++ ';' :: m.Payload.data))))) ++ ['\x0a'] := by
    simp [Message.Marshal, hsv, string_data_append, semi_data, nl_data,
      List.append_assoc]
  rw [hmar, trimNewline_concat,
    splitNChars_cons 4 _ (uint8_repr_fact m.NodeID h1).2,
    splitNChars_cons 3 _ (uint8_repr_fact m.ChildSensorID h2).2,
    splitNChars_cons 2 _ (uint8_repr_fact m.type h3).2,
    splitNChars_cons 1 _ (uint8_repr_fact m.Ack h4).2,
    splitNChars_cons 0 _ (uint8_repr_fact v hv).2,
    splitNChars_one]

/-- The Go `SubType` interface value matches the already-set `Type` field:
this is what "a `SubType` of the matching enumeration" means for the four
`Type` values that have one (`Stream` has no subtype enumeration). -/
def MatchingSubType (m : Message) : Prop :=
  (m.type = MsgPresentation ∧ ∃ v, v < 256 ∧ m.SubType = some (.pres v)) ∨
  ((m.type = MsgSet ∨ m.type = MsgReq) ∧ ∃ v, v < 256 ∧ m.SubType = some (.setReq v)) ∨
  (m.type = MsgInternal ∧ ∃ v, v < 256 ∧ m.SubType = some (.internal v))

/-- A valid message: `uint8`-ranged fields, a subtype of the enumeration
matching the type, and a payload free of the `';'` separator and of the
line-feed terminator. -/
def ValidMessage (m : Message) : Prop :=
  m.NodeID < 256 ∧ m.ChildSensorID < 256 ∧ m.Ack < 256 ∧
  MatchingSubType m ∧ ';' ∉ m.Payload.data ∧ '\x0a' ∉ m.Payload.data

/-- Decoding a marshalled message on any receiver reproduces all six
fields, for the four types that own a subtype enumeration. -/
theorem unmarshal_marshal (m m0 : Message) (v : Nat) (t : Nat)
    (h1 : m.NodeID < 256) (h2 : m.ChildSensorID < 256)
    (h3 : m.type = t) (ht : t < 256) (h4 : m.Ack < 256) (hv : v < 256)
    (hsv : subTypeField m.SubType = toString v)
    (hdispatch :
      (if t = MsgPresentation then some (SubTypeVal.pres v)
       else if t = MsgSet ∨ t = MsgReq then some (SubTypeVal.setReq v)
       else if t = MsgInternal then some (SubTypeVal.internal v)
       else m0.SubType) = m.SubType) :
    m0.Unmarshal m.Marshal = some m := by
  rw [Message.Unmarshal,
    splitN_marshal m v h1 h2 (h3 ▸ ht) h4 hv hsv]
  simp only [string_mk_data,
    (uint8_repr_fact m.NodeID h1).1,
    (uint8_repr_fact m.ChildSensorID h2).1,
    (uint8_repr_fact m.Ack h4).1,
    (uint8_repr_fact v hv).1,
    toUint8_coe h1, toUint8_coe h2,
    toUint8_coe h4, toUint8_coe hv, h3,
    (uint8_repr_fact t ht).1, toUint8_coe ht, hdispatch]
  rw [← h3]

/-- C1.  For every valid Message, `Unmarshal (Marshal m)` succeeds and
reproduces `NodeID`, `ChildSensorID`, `Type`, `Ack`, `SubType` and
`Payload` — on any receiver, in particular the fresh one the link reader
uses. -/
theorem C1_decode_encode_roundtrip (m : Message) (h : ValidMessage m) :
    freshMessage.Unmarshal m.Marshal = some m := by
  obtain ⟨h1, h2, h4, hst, hpay, hnl⟩ := h
  rcases hst with ⟨ht, v, hv, hsub⟩ | ⟨ht, v, hv, hsub⟩ | ⟨ht, v, hv, hsub⟩
  · exact unmarshal_marshal m freshMessage v MsgPresentation h1 h2 ht (by decide)
      h4 hv (by rw [hsub]; rfl) (by rw [← hsub]; rfl)
  · rcases ht with ht | ht
    · exact unmarshal_marshal m freshMessage v MsgSet h1 h2 ht (by decide)
        h4 hv (by rw [hsub]; rfl) (by rw [← hsub]; rfl)
    · exact unmarshal_marshal m freshMessage v MsgReq h1 h2 ht (by decide)
        h4 hv (by rw [hsub]; rfl) (by rw [← hsub]; rfl)
  · exact unmarshal_marshal m freshMessage v MsgInternal h1 h2 ht (by decide)
      h4 hv (by rw [hsub]; rfl) (by rw [← hsub]; rfl)

/-- Witness for C1 at a concrete valid message. -/
theorem C1_decode_encode_roundtrip_witness :
    ValidMessage { NodeID := 4, ChildSensorID := 1, type := 1, Ack := 0,
                   SubType := some (.setReq 0), Payload := "21.5" } ∧
    freshMessage.Unmarshal
        (Message.Marshal { NodeID := 4, ChildSensorID := 1, type := 1, Ack := 0,
                           SubType := some (.setReq 0), Payload := "21.5" }) =
      some { NodeID := 4, ChildSensorID := 1, type := 1, Ack := 0,
             SubType := some (.setReq 0), Payload := "21.5" } := by
  constructor
  · refine ⟨by decide, by decide, by decide, ?_, by decide, by decide⟩
    exact Or.inr (Or.inl ⟨Or.inl rfl, 0, by decide, rfl⟩)
  · exact C1_decode_encode_roundtrip _
      ⟨by decide, by decide, by decide,
       Or.inr (Or.inl ⟨Or.inl rfl, 0, by decide, rfl⟩), by decide, by decide⟩

/-! ### C2 / C10: rejection and truncation behaviour of Unmarshal -/

theorem goAtoi_of_parseDigits {p : List Char} {v : Nat}
    (h : parseDigits p = some v) (hr : v ≤ int64Max) :
    goAtoi (String.mk p) = some (v : Int) := by
  cases p with
  | nil => simp [parseDigits] at h
  | cons c cs =>
    have hplus : ¬ c = '+' := by
      rintro rfl; simp [parseDigits, parseDigitsAux, digitVal] at h
    have hminus : ¬ c = '-' := by
      rintro rfl; simp [parseDigits, parseDigitsAux, digitVal] at h
    show goAtoi (String.mk (c :: cs)) = some (v : Int)
    rw [goAtoi]
    simp only [if_neg hplus, if_neg hminus]
    rw [h]
    simp [hr]

theorem unmarshal_none_of_length_ne (m : Message) (b : String)
    (h : (splitNChars ';' 6 (trimNewline b.data)).length ≠ 6) :
    m.Unmarshal b = none := by
  rw [Message.Unmarshal]
  generalize hs : splitNChars ';' 6 (trimNewline b.data) = parts at h
  rcases parts with _ | ⟨p0, _ | ⟨p1, _ | ⟨p2, _ | ⟨p3, _ | ⟨p4, _ | ⟨p5, _ | ⟨p6, rest⟩⟩⟩⟩⟩⟩⟩
  · rfl
  · rfl
  · rfl
  · rfl
  · rfl
  · rfl
  · exact absurd rfl h
  · rfl

theorem unmarshal_none_of_bad_int (m : Message) (b : String)
    (p0 p1 p2 p3 p4 p5 : List Char)
    (hs : splitNChars ';' 6 (trimNewline b.data) = [p0, p1, p2, p3, p4, p5])
    (hbad : goAtoi (String.mk p0) = none ∨ goAtoi (String.mk p1) = none ∨
      goAtoi (String.mk p2) = none ∨ goAtoi (String.mk p3) = none) :
    m.Unmarshal b = none := by
  rw [Message.Unmarshal, hs]
  rcases hbad with h | h | h | h <;>
    cases hg0 : goAtoi (String.mk p0) <;>
    cases hg1 : goAtoi (String.mk p1) <;>
    cases hg2 : goAtoi (String.mk p2) <;>
    cases hg3 : goAtoi (String.mk p3) <;>
    simp_all

/-- C2 (amended).  Unmarshal rejects every line whose `SplitN(·, ";", 6)`
decomposition does not have exactly 6 fields (i.e. fewer than 6 — the
split never yields more), and every line among whose six fields one of
the first four is not a valid decimal integer. -/
theorem C2_reject_malformed (m : Message) (b : String) :
    ((splitNChars ';' 6 (trimNewline b.data)).length ≠ 6 →
      m.Unmarshal b = none) ∧
    (∀ p0 p1 p2 p3 p4 p5,
      splitNChars ';' 6 (trimNewline b.data) = [p0, p1, p2, p3, p4, p5] →
      (goAtoi (String.mk p0) = none ∨ goAtoi (String.mk p1) = none ∨
        goAtoi (String.mk p2) = none ∨ goAtoi (String.mk p3) = none) →
      m.Unmarshal b = none) :=
  ⟨unmarshal_none_of_length_ne m b,
   fun p0 p1 p2 p3 p4 p5 hs hbad =>
     unmarshal_none_of_bad_int m b p0 p1 p2 p3 p4 p5 hs hbad⟩

/-- Witness for C2: a 2-field line and a line with a non-numeric NodeID
field are both rejected. -/
theorem C2_reject_malformed_witness :
    freshMessage.Unmarshal "1;2\x0a" = none ∧
    freshMessage.Unmarshal "a;0;1;0;0;x\x0a" = none :=
  ⟨(C2_reject_malformed freshMessage "1;2\x0a").1 (by decide),
   (C2_reject_malformed freshMessage "a;0;1;0;0;x\x0a").2
     ['a'] ['0'] ['1'] ['0'] ['0'] ['x'] (by decide) (Or.inl (by decide))⟩

/-- C2 counterexample.  The claim also asserts that a line with *more*
than 6 `;`-separated fields is rejected; in fact `strings.SplitN(s, ";", 6)`
folds the extra separators into the sixth field, and the line is accepted
with the extra separator inside the payload.  Here a 7-field line decodes
successfully. -/
theorem C2_more_than_six_fields_accepted :
    List.count ';' (String.data "1;2;3;0;4;a;b") = 6 ∧
    freshMessage.Unmarshal "1;2;3;0;4;a;b\x0a" =
      some { NodeID := 1, ChildSensorID := 2, type := 3, Ack := 0,
             SubType := some (.internal 4), Payload := "a;b" } := by
  constructor
  · decide
  · decide

/-- Conversion `uint8(i)` of a non-negative integer is its value modulo 256. -/
theorem toUint8_coe_mod (v : Nat) : toUint8 (v : Int) = v % 256 := by
  unfold toUint8
  omega

/-- C10 (amended).  Any line whose six fields begin with five decimal
integer strings is accepted, whatever their size (up to the `int64` range
of `strconv.Atoi`), and the four header fields are stored reduced modulo
256 rather than being range-checked against 0–255. -/
theorem C10_wire_fields_mod256 (m : Message) (b : String)
    (p0 p1 p2 p3 p4 p5 : List Char) (v0 v1 v2 v3 v4 : Nat)
    (hs : splitNChars ';' 6 (trimNewline b.data) = [p0, p1, p2, p3, p4, p5])
    (h0 : parseDigits p0 = some v0) (h1 : parseDigits p1 = some v1)
    (h2 : parseDigits p2 = some v2) (h3 : parseDigits p3 = some v3)
    (h4 : parseDigits p4 = some v4)
    (r0 : v0 ≤ int64Max) (r1 : v1 ≤ int64Max) (r2 : v2 ≤ int64Max)
    (r3 : v3 ≤ int64Max) (r4 : v4 ≤ int64Max) :
    ∃ m', m.Unmarshal b = some m' ∧ m'.NodeID = v0 % 256 ∧
      m'.ChildSensorID = v1 % 256 ∧ m'.type = v2 % 256 ∧ m'.Ack = v3 % 256 := by
  have hu : m.Unmarshal b = some
      { NodeID := toUint8 (v0 : Int), ChildSensorID := toUint8 (v1 : Int),
        type := toUint8 (v2 : Int), Ack := toUint8 (v3 : Int),
        SubType :=
          (if toUint8 (v2 : Int) = MsgPresentation then
            some (SubTypeVal.pres (toUint8 (v4 : Int)))
          else if toUint8 (v2 : Int) = MsgSet ∨ toUint8 (v2 : Int) = MsgReq then
            some (SubTypeVal.setReq (toUint8 (v4 : Int)))
          else if toUint8 (v2 : Int) = MsgInternal then
            some (SubTypeVal.internal (toUint8 (v4 : Int)))
          else m.SubType),
        Payload := String.mk p5 } := by
    rw [Message.Unmarshal, hs]
    simp only [goAtoi_of_parseDigits h0 r0, goAtoi_of_parseDigits h1 r1,
      goAtoi_of_parseDigits h2 r2, goAtoi_of_parseDigits h3 r3,
      goAtoi_of_parseDigits h4 r4]
  exact ⟨_, hu, toUint8_coe_mod v0, toUint8_coe_mod v1,
    toUint8_coe_mod v2, toUint8_coe_mod v3⟩

/-- Witness for C10: wire NodeID `"300"` decodes successfully to
NodeID 44. -/
theorem C10_wire_fields_mod256_witness :
    ∃ m', freshMessage.Unmarshal "300;0;1;0;0;x\x0a" = some m' ∧
      m'.NodeID = 300 % 256 ∧ m'.ChildSensorID = 0 % 256 ∧
      m'.type = 1 % 256 ∧ m'.Ack = 0 % 256 :=
  C10_wire_fields_mod256 freshMessage "300;0;1;0;0;x\x0a"
    ['3', '0', '0'] ['0'] ['1'] ['0'] ['0'] ['x'] 300 0 1 0 0
    (by decide) (by decide) (by decide) (by decide) (by decide) (by decide)
    (by decide) (by decide) (by decide) (by decide) (by decide)

/-- C10 counterexample.  The claim as stated says out-of-range values are
truncated "rather than rejected" for every decimal field outside 0–255;
but a field beyond the `int64` range of `strconv.Atoi` (here `2^63`) is a
parse error and the line is rejected. -/
theorem C10_beyond_int64_rejected :
    freshMessage.Unmarshal "9223372036854775808;0;1;0;0;x\x0a" = none := by
  decide

/-! ### Network model: sensors.go (src/unnamed/part_002)

Constants from the Go source. -/

def FirstNodeID : Nat := 1
def GatewayID : Nat := 0
def NoChild : Nat := 255

/-- Go `SubTypeSetReq` constants (positions in the Go enum, with the two
commented-out names absent). -/
def V_TEMP : Nat := 0
def V_HUM : Nat := 1
def V_PERCENTAGE : Nat := 3
def V_PRESSURE : Nat := 4
def V_LIGHT_LEVEL : Nat := 23
def V_VOLUME : Nat := 35
def V_LEVEL : Nat := 37
def V_VOLTAGE : Nat := 38

/-- Go `SubTypeInternal` constants. -/
def I_BATTERY_LEVEL : Nat := 0
def I_TIME : Nat := 1
def I_VERSION : Nat := 2
def I_ID_REQUEST : Nat := 3
def I_ID_RESPONSE : Nat := 4
def I_CONFIG : Nat := 6
def I_SKETCH_NAME : Nat := 11
def I_SKETCH_VERSION : Nat := 12
def I_GATEWAY_READY : Nat := 14

/-- Model of a Go `float64` produced by `strconv.ParseFloat` from a decimal
string: the exact decimal value `num * 10 ^ exp`.  IEEE-754 rounding to
binary, the `Inf`/`NaN` specials, hexadecimal floats and underscore
separators are not modelled; no claim depends on them. -/
structure GoFloat where
  num : Int
  exp : Int
  deriving DecidableEq, Repr

/-- Leading decimal digits of a character list, and the rest. -/
def takeDigits : List Char → List Nat × List Char
  | [] => ([], [])
  | c :: cs =>
    match digitVal c with
    | some d =>
      let (ds, rest) := takeDigits cs
      (d :: ds, rest)
    | none => ([], c :: cs)

def digitsToNat (ds : List Nat) : Nat := ds.foldl (fun a d => a * 10 + d) 0

/-- Exponent part of a float literal (after the mantissa): empty, or
`(e|E)[+|-]digits` consuming the whole rest. -/
def floatExpPart (sgn : Int) (mant : Nat) (e0 : Int) : List Char → Option GoFloat
  | [] => some ⟨sgn * mant, e0⟩
  | c :: rest =>
    if c = 'e' ∨ c = 'E' then
      let (esgn, rest2) : Int × List Char :=
        match rest with
        | '+' :: r => (1, r)
        | '-' :: r => (-1, r)
        | r => (1, r)
      let (ed, rest3) := takeDigits rest2
      if ed.isEmpty then none
      else if rest3.isEmpty then
        some ⟨sgn * mant, e0 + esgn * (digitsToNat ed : Int)⟩
      else none
    else none

/-- Mantissa of a float literal: `digits[.digits]` or `.digits`, at least
one digit, then the exponent part. -/
def floatMantissa (sgn : Int) (cs : List Char) : Option GoFloat :=
  let (ip, rest1) := takeDigits cs
  match rest1 with
  | '.' :: rest2 =>
    let (fp, rest3) := takeDigits rest2
    if ip.isEmpty ∧ fp.isEmpty then none
    else floatExpPart sgn (digitsToNat (ip ++ fp)) (-(fp.length : Int)) rest3
  | _ =>
    if ip.isEmpty then none
    else floatExpPart sgn (digitsToNat ip) 0 rest1

/-- Model of Go `strconv.ParseFloat(s, 64)` on decimal inputs: optional
sign, mantissa with at least one digit, optional exponent.  Returns the
exact decimal value. -/
def goParseFloat (s : String) : Option GoFloat :=
  match s.data with
  | [] => none
  | '+' :: cs => floatMantissa 1 cs
  | '-' :: cs => floatMantissa (-1) cs
  | cs => floatMantissa 1 cs

/-- Round `num / denom` (`denom > 0`) to the nearest integer, ties to
even (the tie behaviour of the real `float64` formatting depends on the
binary representation; no claim exercises a tie). -/
def roundHalfEven (num denom : Int) : Int :=
  let q := num / denom
  let r := num % denom
  if 2 * r > denom then q + 1
  else if 2 * r < denom then q
  else if q % 2 = 0 then q else q + 1

/-- The value of `f` scaled by 100 and rounded to an integer. -/
def scaled2 (f : GoFloat) : Int :=
  if 0 ≤ f.exp + 2 then f.num * (10 : Int) ^ (f.exp + 2).toNat
  else roundHalfEven f.num ((10 : Int) ^ (-(f.exp + 2)).toNat)

/-- Model of `strconv.FormatFloat(f, 'f', 2, 64)`: fixed-point with two
fraction digits. -/
def formatFloat2 (f : GoFloat) : String :=
  let n := scaled2 f
  let a := n.natAbs
  let sign := if n < 0 then "-" else ""
  let frac := a % 100
  let fracStr := if frac < 10 then "0" ++ toString frac else toString frac
  sign ++ toString (a / 100) ++ "." ++ fracStr

/-- The Go `Var.Type` tags. -/
def varString : String := "string"
def varFloat : String := "float"

/-- Go `Var` struct (`Type` renamed `typ`: Lean keyword). -/
structure Var where
  Name : String
  typ : String
  SubType : Nat
  FloatVal : GoFloat
  StringVal : String
  deriving DecidableEq, Repr

/-- Go `Var.Set`: store the payload, parsing it as a float for
float-classified variables; the parse failure is returned as an error and
the stored value left untouched. -/
def Var.Set (v : Var) (val : String) : Except Unit Var :=
  if v.typ = varString then .ok { v with StringVal := val }
  else if v.typ = varFloat then
    match goParseFloat val with
    | none => .error ()
    | some fv => .ok { v with FloatVal := fv }
  else .ok v

/-- Go `Var.Value`: the stringified current value. -/
def Var.Value (v : Var) : String :=
  if v.typ = varString then v.StringVal
  else if v.typ = varFloat then formatFloat2 v.FloatVal
  else ""

/-- The `subTypeSetReq` name table (index = enum value). -/
def subTypeSetReqNames : List String :=
  ["V_TEMP", "V_HUM", "V_STATUS", "V_PERCENTAGE", "V_PRESSURE",
   "V_FORECAST", "V_RAIN", "V_RAINRATE", "V_WIND", "V_GUST",
   "V_DIRECTION", "V_UV", "V_WEIGHT", "V_DISTANCE", "V_IMPEDANCE",
   "V_ARMED", "V_TRIPPED", "V_WATT", "V_KWH", "V_SCENE_ON",
   "V_SCENE_OFF", "V_HVAC_FLOW_STATE", "V_HVAC_SPEED", "V_LIGHT_LEVEL",
   "V_VAR1", "V_VAR2", "V_VAR3", "V_VAR4", "V_VAR5",
   "V_UP", "V_DOWN", "V_STOP", "V_IR_SEND", "V_IR_RECEIVE",
   "V_FLOW", "V_VOLUME", "V_LOCK_STATUS", "V_LEVEL", "V_VOLTAGE",
   "V_CURRENT", "V_RGB", "V_RGBW", "V_ID", "V_UNIT_PREFIX",
   "V_HVAC_SETPOINT_COOL", "V_HVAC_SETPOINT_HEAT", "V_HVAC_FLOW_MODE"]

/-- Go `SubTypeSetReq.String()`: table lookup; `none` models the index-out-of-
range panic for values outside the enumeration. -/
def subTypeSetReqString (v : Nat) : Option String := subTypeSetReqNames.get? v

/-- Go map lookup, on the association-list model of a map. -/
def alGet {α : Type} (k : String) : List (String × α) → Option α
  | [] => none
  | (k', v) :: rest => if k' = k then some v else alGet k rest

/-- Go map insertion/overwrite. -/
def alPut {α : Type} (k : String) (v : α) : List (String × α) → List (String × α)
  | [] => [(k, v)]
  | (k', v') :: rest => if k' = k then (k, v) :: rest else (k', v') :: alPut k v rest

/-- The float classification switch in `Sensor.HandleMessage`'s Set case. -/
def floatClassified (v : Nat) : Bool :=
  v = V_TEMP || v = V_HUM || v = V_PRESSURE || v = V_LEVEL ||
  v = V_VOLUME || v = V_VOLTAGE || v = V_LIGHT_LEVEL

/-- Calls into the metrics registry, recorded as events. -/
inductive Emit where
  | gaugeSet (t : Nat) (labels : List String) (v : GoFloat)
  | rxPacket (labels : List String)
  deriving DecidableEq, Repr

/-- The `log.Printf` call sites of the modelled functions, recorded as events.
There is one constructor per call site in the source; in particular no
call site logs a float-parse failure. -/
inductive LogEvent where
  | gwMsg (m : Message)
  | pres (m : Message)
  | set (m : Message)
  | req (m : Message)
  | unkn (m : Message)
  | gatewayReady
  | unsupported (m : Message)
  | unknownMsgType (m : Message)
  deriving DecidableEq, Repr

/-- Go `Sensor` struct.  The non-owning `node` back-pointer is modelled by
the `nodeAttached` flag (set by `NewSensor` and by the `LoadJson`
reattachment pass); the data it reaches (the node's `Location` and `ID`)
is passed to `Sensor.HandleMessage` explicitly. -/
structure Sensor where
  ID : Nat
  Presentation : Nat
  Vars : List (String × Var)
  nodeAttached : Bool
  deriving DecidableEq, Repr

/-- Go `NewSensor`: zero-valued sensor with the back-pointer set. -/
def NewSensor : Sensor :=
  { ID := 0, Presentation := 0, Vars := [], nodeAttached := true }

/-- Result of `Sensor.HandleMessage` (which always returns a nil error):
updated sensor, messages sent on the shared `tx` channel, metric calls and
log lines. -/
structure SensorResult where
  sensor : Sensor
  tx : List Message
  emits : List Emit
  logs : List LogEvent
  deriving DecidableEq, Repr

/-- The zero-valued `Var` created on first observation of a subtype
(`&Var{Type: t}`). -/
def newVar (t : String) : Var :=
  { Name := "", typ := t, SubType := 0, FloatVal := ⟨0, 0⟩, StringVal := "" }

/-- Go `Sensor.HandleMessage`.  Here `none` models the panics: a failed subtype
type assertion or an out-of-enumeration `String()` index. -/
def Sensor.HandleMessage (s0 : Sensor) (nodeLoc : String) (nodeID : Nat)
    (m : Message) : Option SensorResult :=
  let s := { s0 with ID := m.ChildSensorID }
  if m.type = MsgPresentation then
    match m.SubType with
    | some (.pres v) =>
      some { sensor := { s with Presentation := v }, tx := [], emits := [],
             logs := [.pres m] }
    | _ => none
  else if m.type = MsgSet then
    match m.SubType with
    | some (.setReq v) =>
      match subTypeSetReqString v with
      | none => none
      | some key =>
        let var0 :=
          match alGet key s.Vars with
          | some w => w
          | none =>
            if floatClassified v then newVar varFloat else newVar varString
        let var1 := { var0 with SubType := v }
        let var2 :=
          match var1.Set m.Payload with
          | .ok w => w
          | .error _ => var1
        some { sensor := { s with Vars := alPut key var2 s.Vars },
               tx := [],
               emits :=
                 if var2.typ = varFloat then
                   [Emit.gaugeSet v [nodeLoc, toString nodeID, toString s.ID]
                     var2.FloatVal]
                 else [],
               logs := [.set m] }
    | _ => none
  else if m.type = MsgReq then
    match m.SubType with
    | some (.setReq v) =>
      match subTypeSetReqString v with
      | none => none
      | some key =>
        let vr :=
          match alGet key s.Vars with
          | some w => w.Value
          | none => "0"
        match m.Copy with
        | none => none
        | some r0 =>
          some { sensor := s,
                 tx := [{ r0 with SubType := some (.setReq v), Payload := vr }],
                 emits := [], logs := [.req m] }
    | _ => none
  else
    some { sensor := s, tx := [], emits := [], logs := [] }

/-- Go `Node` struct.  The non-owning `network` back-pointer is modelled
by the `netAttached` flag. -/
structure Node where
  ID : Nat
  Battery : Int
  Location : String
  Version : String
  SketchName : String
  SketchVersion : String
  Sensors : List (String × Sensor)
  netAttached : Bool
  deriving DecidableEq, Repr

/-- Go `NewNode`: zero-valued node with the back-pointer set. -/
def NewNode : Node :=
  { ID := 0, Battery := 0, Location := "", Version := "", SketchName := "",
    SketchVersion := "", Sensors := [], netAttached := true }

/-- Model of `strconv.ParseInt(s, 10, 32)` with the error discarded, as
`Node.handleMessage` uses it for the battery level: syntax errors yield 0,
out-of-range values are clamped to the `int32` bounds. -/
def goParseInt32 (s : String) : Int :=
  let core : Int → List Char → Int := fun sgn ds =>
    match parseDigits ds with
    | none => 0
    | some n =>
      if 0 ≤ sgn then
        if (n : Int) ≤ 2 ^ 31 - 1 then (n : Int) else 2 ^ 31 - 1
      else
        if (n : Int) ≤ 2 ^ 31 then -(n : Int) else -(2 ^ 31)
  match s.data with
  | '+' :: cs => core 1 cs
  | '-' :: cs => core (-1) cs
  | cs => core 1 cs

/-- Result of `Node.HandleMessage` / `Network.HandleMessage`: the error
field models the Go `error` return (`some msg` = non-nil). -/
structure NodeResult where
  node : Node
  tx : List Message
  emits : List Emit
  logs : List LogEvent
  err : Option String
  deriving DecidableEq, Repr

/-- Go `Node.handleMessage` (lower case in Go): node-level handling of a
`NoChild` message on the already-updated node. -/
def Node.handleNoChild (n : Node) (m : Message) : Option NodeResult :=
  if m.type ≠ MsgInternal then
    some { node := n, tx := [], emits := [], logs := [],
           err := some ("Unknown message to child id " ++ toString NoChild) }
  else
    match m.SubType with
    | some (.internal v) =>
      if v = I_BATTERY_LEVEL then
        let b := goParseInt32 m.Payload
        some { node := { n with Battery := b }, tx := [],
               emits := [Emit.gaugeSet V_PERCENTAGE
                 [n.Location, toString n.ID, "0"] ⟨b, -2⟩],
               logs := [], err := none }
      else if v = I_VERSION then
        some { node := { n with Version := m.Payload }, tx := [], emits := [],
               logs := [], err := none }
      else if v = I_SKETCH_NAME then
        some { node := { n with SketchName := m.Payload }, tx := [],
               emits := [], logs := [], err := none }
      else if v = I_SKETCH_VERSION then
        some { node := { n with SketchVersion := m.Payload }, tx := [],
               emits := [], logs := [], err := none }
      else
        some { node := n, tx := [], emits := [], logs := [.unkn m],
               err := none }
    | _ => none

/-- Go `Node.HandleMessage`: overwrite the node ID, count the packet, then
dispatch to the node-level handler or to the (looked-up or created)
child sensor. -/
def Node.HandleMessage (n0 : Node) (m : Message) : Option NodeResult :=
  let n := { n0 with ID := m.NodeID }
  let rx : List Emit := [Emit.rxPacket [toString n.ID, n.Location]]
  if m.ChildSensorID = NoChild then
    (n.handleNoChild m).map fun r => { r with emits := rx ++ r.emits }
  else
    let cs :=
      match alGet (toString m.ChildSensorID) n.Sensors with
      | some s => s
      | none => NewSensor
    match cs.HandleMessage n.Location n.ID m with
    | none => none
    | some sr =>
      some { node := { n with
               Sensors := alPut (toString m.ChildSensorID) sr.sensor n.Sensors },
             tx := sr.tx, emits := rx ++ sr.emits, logs := sr.logs,
             err := none }

/-- Go `Network` struct: the node map.  The metrics registry and the
shared `Tx` channel are modelled as event/output lists. -/
structure Network where
  Nodes : List (String × Node)
  deriving DecidableEq, Repr

structure NetResult where
  network : Network
  tx : List Message
  emits : List Emit
  logs : List LogEvent
  err : Option String
  deriving DecidableEq, Repr

/-- Go `Network.HandleMessage`: log a gateway-origin message, then look up or
create the node and delegate. -/
def Network.HandleMessage (net : Network) (m : Message) : Option NetResult :=
  let gwLogs : List LogEvent := if m.NodeID = GatewayID then [.gwMsg m] else []
  let nd :=
    match alGet (toString m.NodeID) net.Nodes with
    | some d => d
    | none => NewNode
  match nd.HandleMessage m with
  | none => none
  | some nr =>
    some { network := { Nodes := alPut (toString m.NodeID) nr.node net.Nodes },
           tx := nr.tx, emits := nr.emits, logs := gwLogs ++ nr.logs,
           err := nr.err }

/-- Go `Network.NextNodeID`: fold over the nodes (the Go map iteration order
is arbitrary; the model iterates in list order, and the theorems quantify
over all lists).  `node.ID + 1` is `uint8` addition, hence the mod 256. -/
def Network.NextNodeID (net : Network) : Nat :=
  net.Nodes.foldl
    (fun nextID p => if p.2.ID ≥ nextID then (p.2.ID + 1) % 256 else nextID)
    FirstNodeID

/-- Go `Network.LoadJson`.  The file system and `encoding/json` are external:
`fileExists` models the `os.Stat`/`IsNotExist` check and `decoded` the
result of `ReadFile` + `json.Unmarshal` into a fresh receiver (`none` is
either failure).  On success the reattachment loop sets every node's and
sensor's back-pointer. -/
def Network.LoadJson (net : Network) (fileExists : Bool)
    (decoded : Option Network) : Except Unit Network :=
  if fileExists = false then .ok net
  else
    match decoded with
    | none => .error ()
    | some d =>
      .ok { Nodes := d.Nodes.map fun p =>
        (p.1, { p.2 with
          netAttached := true,
          Sensors := p.2.Sensors.map fun q =>
            (q.1, { q.2 with nodeAttached := true }) }) }

/-! ### Handler state machine: handle.go -/

/-- The handler's mutable state: the readiness flag and the network it
allocates IDs from. -/
structure HState where
  ready : Bool
  network : Network
  deriving DecidableEq, Repr

/-- Go `Handler.processInternal`, parameterised by the current Unix time for
the `I_TIME` reply.  Returns (state, computed reply, messages forwarded to
`h.c`, logs); `none` models the subtype type-assertion panic or a `Copy`
panic. -/
def processInternal (st : HState) (now : Int) (m : Message) :
    Option (HState × Option Message × List Message × List LogEvent) :=
  match m.SubType with
  | some (.internal v) =>
    if v = I_ID_REQUEST then
      match m.Copy with
      | none => none
      | some r0 =>
        some (st,
          some { r0 with
            SubType := some (.internal I_ID_RESPONSE),
            Payload := toString st.network.NextNodeID },
          [], [])
    else if v = I_CONFIG then
      match m.Copy with
      | none => none
      | some r0 =>
        some (st,
          some { r0 with
            SubType := some (.internal I_CONFIG),
            Payload := "M" },
          [], [])
    else if v = I_GATEWAY_READY then
      some ({ st with ready := true }, none, [m], [.gatewayReady])
    else if v = I_TIME then
      match m.Copy with
      | none => none
      | some r0 => some (st, some { r0 with Payload := toString now }, [], [])
    else
      some (st, none, [m], [.unsupported m])
  | _ => none

/-- One iteration of `Handler.Start`'s loop on an inbound message:
dispatch on the type, then write the computed reply to `Tx` only when
ready.  Returns (state, written to `Tx`, forwarded to `h.c`, logs). -/
def HStep (st : HState) (now : Int) (m : Message) :
    Option (HState × List Message × List Message × List LogEvent) :=
  if m.type = MsgInternal then
    match processInternal st now m with
    | none => none
    | some (st', r, c, lg) =>
      some (st',
        (match r with
         | some x => if st'.ready then [x] else []
         | none => []), c, lg)
  else if m.type = MsgSet then
    some ({ st with ready := true }, [], [m], [])
  else if m.type = MsgReq then
    some (st, [], [m], [])
  else if m.type = MsgPresentation then
    some (st, [], [m], [])
  else
    some (st, [], [], [LogEvent.unknownMsgType m])

/-- The handler loop over a sequence of inbound messages, concatenating
the outputs (written-to-`Tx`, forwarded-to-`c`, logs). -/
def HRun (st : HState) (now : Int) :
    List Message → Option (HState × List Message × List Message × List LogEvent)
  | [] => some (st, [], [], [])
  | m :: ms =>
    (HStep st now m).bind fun out =>
      (HRun out.1 now ms).bind fun out2 =>
        some (out2.1, out.2.1 ++ out2.2.1, out.2.2.1 ++ out2.2.2.1,
          out.2.2.2 ++ out2.2.2.2)

/-! ### C3: NextNodeID -/

/-- The fold step of `NextNodeID`. -/
def nextStep (nextID : Nat) (p : String × Node) : Nat :=
  if p.2.ID ≥ nextID then (p.2.ID + 1) % 256 else nextID

theorem nextNodeID_eq_fold (net : Network) :
    net.NextNodeID = net.Nodes.foldl nextStep FirstNodeID := rfl

theorem nextStep_ge {l : List (String × Node)} (h : ∀ p ∈ l, p.2.ID < 255) :
    ∀ cur : Nat, cur ≤ l.foldl nextStep cur := by
  induction l with
  | nil => intro cur; exact Nat.le_refl cur
  | cons q rest ih =>
    intro cur
    have hq : q.2.ID < 255 := h q (List.mem_cons_self _ _)
    have hrest : ∀ p ∈ rest, p.2.ID < 255 :=
      fun p hp => h p (List.mem_cons_of_mem q hp)
    have hstep : cur ≤ nextStep cur q := by
      unfold nextStep
      split
      · rw [Nat.mod_eq_of_lt (by omega)]; omega
      · exact Nat.le_refl cur
    calc cur ≤ nextStep cur q := hstep
      _ ≤ rest.foldl nextStep (nextStep cur q) := ih hrest _

theorem nextStep_gt_mem {l : List (String × Node)} (h : ∀ p ∈ l, p.2.ID < 255) :
    ∀ cur : Nat, ∀ p ∈ l, p.2.ID < l.foldl nextStep cur := by
  induction l with
  | nil => intro cur p hp; cases hp
  | cons q rest ih =>
    intro cur p hp
    have hq : q.2.ID < 255 := h q (List.mem_cons_self _ _)
    have hrest : ∀ r ∈ rest, r.2.ID < 255 :=
      fun r hr => h r (List.mem_cons_of_mem q hr)
    rcases List.mem_cons.mp hp with rfl | hp'
    · have hstep : p.2.ID < nextStep cur p := by
        unfold nextStep
        split
        · rw [Nat.mod_eq_of_lt (by omega)]; omega
        · omega
      calc p.2.ID < nextStep cur p := hstep
        _ ≤ rest.foldl nextStep (nextStep cur p) := nextStep_ge hrest _
    · exact ih hrest (nextStep cur q) p hp'

theorem nextStep_eq_or {l : List (String × Node)} (h : ∀ p ∈ l, p.2.ID < 255) :
    ∀ cur : Nat, l.foldl nextStep cur = cur ∨
      ∃ p ∈ l, l.foldl nextStep cur = p.2.ID + 1 := by
  induction l with
  | nil => intro cur; exact Or.inl rfl
  | cons q rest ih =>
    intro cur
    have hq : q.2.ID < 255 := h q (List.mem_cons_self _ _)
    have hrest : ∀ r ∈ rest, r.2.ID < 255 :=
      fun r hr => h r (List.mem_cons_of_mem q hr)
    have hstep : nextStep cur q = cur ∨ nextStep cur q = q.2.ID + 1 := by
      unfold nextStep
      split
      · exact Or.inr (Nat.mod_eq_of_lt (by omega))
      · exact Or.inl rfl
    rcases ih hrest (nextStep cur q) with heq | ⟨p, hp, heq⟩
    · rw [List.foldl_cons, heq]
      rcases hstep with h' | h'
      · exact Or.inl h'
      · exact Or.inr ⟨q, List.mem_cons_self _ _, h'⟩
    · exact Or.inr ⟨p, List.mem_cons_of_mem q hp, by rw [List.foldl_cons, heq]⟩

/-- C3 (amended).  `NextNodeID` on an empty Network returns 1; on any
Network whose node IDs are all below 255 (so that the `uint8` increment
cannot wrap) it returns strictly more than every present ID, and is either
1 or exactly one more than some present ID — i.e. one greater than the
maximum.  It is a pure function of the `Nodes` map: handing an ID out in
an `ID_RESPONSE` does not record anything, so the result grows past `k`
only once a node with ID `k` is present in the map. -/
theorem C3_next_node_id :
    (∀ net : Network, net.Nodes = [] → net.NextNodeID = FirstNodeID) ∧
    (∀ net : Network, (∀ p ∈ net.Nodes, p.2.ID < 255) →
      (∀ p ∈ net.Nodes, p.2.ID < net.NextNodeID) ∧
      (net.NextNodeID = FirstNodeID ∨
        ∃ p ∈ net.Nodes, net.NextNodeID = p.2.ID + 1)) := by
  constructor
  · intro net h
    rw [nextNodeID_eq_fold, h]
    rfl
  · intro net h
    rw [nextNodeID_eq_fold]
    exact ⟨fun p hp => nextStep_gt_mem h FirstNodeID p hp, nextStep_eq_or h FirstNodeID⟩

/-- A network with nodes 3 and 5, for the C3 witness. -/
def netThreeFive : Network :=
  ⟨[("3", { NewNode with ID := 3 }), ("5", { NewNode with ID := 5 })]⟩

/-- Witness for C3 on a concrete two-node network (`NextNodeID` = 6). -/
theorem C3_next_node_id_witness :
    netThreeFive.NextNodeID = 6 ∧
    ((∀ p ∈ netThreeFive.Nodes, p.2.ID < netThreeFive.NextNodeID) ∧
      (netThreeFive.NextNodeID = FirstNodeID ∨
        ∃ p ∈ netThreeFive.Nodes, netThreeFive.NextNodeID = p.2.ID + 1)) :=
  ⟨by decide, C3_next_node_id.2 netThreeFive (by decide)⟩

/-- A network holding a node with the maximal `uint8` ID. -/
def net255 : Network := ⟨[("255", { NewNode with ID := 255 })]⟩

/-- The `ID_REQUEST` wire message `0;255;3;0;3;`. -/
def idRequestMsg : Message :=
  { NodeID := 0, ChildSensorID := 255, type := 3, Ack := 0,
    SubType := some (.internal 3), Payload := "" }

/-- The handler's `ID_RESPONSE` to `idRequestMsg` over an empty network. -/
def idResponseOneMsg : Message :=
  { NodeID := 0, ChildSensorID := 255, type := 3, Ack := 0,
    SubType := some (.internal 4), Payload := "1" }

/-- C3 counterexample.  (1) With a node of ID 255 present, `NextNodeID`
returns 0 — the `uint8` increment wraps — which is not one greater than
the maximum present ID and is smaller than a present ID.  (2) Allocation
is not recorded: a READY handler over an empty network answers two
consecutive `ID_REQUEST`s with payload `"1"` both times, so the call
after an ID was handed out returns the same ID again, not `k+1` or
greater. -/
theorem C3_counterexample :
    (net255.NextNodeID = 0 ∧ ¬ (255 < net255.NextNodeID)) ∧
    HRun ⟨true, ⟨[]⟩⟩ 0 [idRequestMsg, idRequestMsg] =
      some (⟨true, ⟨[]⟩⟩, [idResponseOneMsg, idResponseOneMsg], [], []) := by
  refine ⟨⟨by decide, by decide⟩, by decide⟩

/-! ### C4: the readiness gate -/

theorem processInternal_state {st : HState} {now : Int} {m : Message}
    {out : HState × Option Message × List Message × List LogEvent}
    (h : processInternal st now m = some out) :
    out.1 = st ∨ out.1 = { st with ready := true } := by
  unfold processInternal at h
  rcases hsub : m.SubType with _ | sv
  · rw [hsub] at h; cases h
  · rcases sv with v | v | v
    · rw [hsub] at h; cases h
    · rw [hsub] at h; cases h
    · simp only [hsub] at h
      by_cases h1 : v = I_ID_REQUEST
      · rw [if_pos h1] at h
        cases hc : m.Copy with
        | none => rw [hc] at h; cases h
        | some r0 => rw [hc] at h; cases h; exact Or.inl rfl
      · rw [if_neg h1] at h
        by_cases h2 : v = I_CONFIG
        · rw [if_pos h2] at h
          cases hc : m.Copy with
          | none => rw [hc] at h; cases h
          | some r0 => rw [hc] at h; cases h; exact Or.inl rfl
        · rw [if_neg h2] at h
          by_cases h3 : v = I_GATEWAY_READY
          · rw [if_pos h3] at h
            cases h
            exact Or.inr rfl
          · rw [if_neg h3] at h
            by_cases h4 : v = I_TIME
            · rw [if_pos h4] at h
              cases hc : m.Copy with
              | none => rw [hc] at h; cases h
              | some r0 => rw [hc] at h; cases h; exact Or.inl rfl
            · rw [if_neg h4] at h
              cases h
              exact Or.inl rfl

theorem HStep_state {st : HState} {now : Int} {m : Message}
    {res : HState × List Message × List Message × List LogEvent}
    (h : HStep st now m = some res) :
    res.1 = st ∨ res.1 = { st with ready := true } := by
  unfold HStep at h
  by_cases h1 : m.type = MsgInternal
  · rw [if_pos h1] at h
    cases hp : processInternal st now m with
    | none => rw [hp] at h; cases h
    | some out =>
      obtain ⟨st', r, c, lg⟩ := out
      rw [hp] at h
      cases h
      exact processInternal_state hp
  · rw [if_neg h1] at h
    by_cases h2 : m.type = MsgSet
    · rw [if_pos h2] at h; cases h; exact Or.inr rfl
    · rw [if_neg h2] at h
      by_cases h3 : m.type = MsgReq
      · rw [if_pos h3] at h; cases h; exact Or.inl rfl
      · rw [if_neg h3] at h
        by_cases h4 : m.type = MsgPresentation
        · rw [if_pos h4] at h; cases h; exact Or.inl rfl
        · rw [if_neg h4] at h; cases h; exact Or.inl rfl

theorem HStep_ready_mono {st : HState} {now : Int} {m : Message}
    {res : HState × List Message × List Message × List LogEvent}
    (h : HStep st now m = some res) (hr : st.ready = true) :
    res.1.ready = true := by
  rcases HStep_state h with h' | h'
  · rw [h']; exact hr
  · rw [h']

theorem HRun_ready_mono {now : Int} :
    ∀ (ms : List Message) (st : HState)
      (res : HState × List Message × List Message × List LogEvent),
      st.ready = true → HRun st now ms = some res → res.1.ready = true := by
  intro ms
  induction ms with
  | nil =>
    intro st res hr h
    unfold HRun at h
    cases h
    exact hr
  | cons m rest ih =>
    intro st res hr h
    unfold HRun at h
    cases hs : HStep st now m with
    | none => rw [hs] at h; cases h
    | some out =>
      rw [hs] at h
      simp only [Option.some_bind] at h
      cases hrun : HRun out.1 now rest with
      | none => rw [hrun] at h; cases h
      | some out2 =>
        rw [hrun] at h
        simp only [Option.some_bind] at h
        cases h
        exact ih out.1 out2 (HStep_ready_mono hs hr) hrun

/-- C4.  The readiness gate: (1) while `NOT_READY`, an `ID_REQUEST`'s
computed reply is not written to `Tx`, although `processInternal` did
compute it; (2) processing any Set message moves the handler to `READY`;
(3) so does an Internal `GATEWAY_READY`, which is forwarded downstream
and not replied to; (4) once `READY`, the handler never returns to
`NOT_READY` over any message sequence; (5) once `READY`, the reply
computed for an equivalent `ID_REQUEST` is written to `Tx`. -/
theorem C4_readiness_gate :
    (∀ (st : HState) (now : Int) (m : Message) (r0 : Message),
      st.ready = false → m.type = MsgInternal →
      m.SubType = some (.internal I_ID_REQUEST) → m.Copy = some r0 →
      processInternal st now m = some (st,
        some { r0 with
          SubType := some (.internal I_ID_RESPONSE),
          Payload := toString st.network.NextNodeID },
        [], []) ∧
      HStep st now m = some (st, [], [], [])) ∧
    (∀ (st : HState) (now : Int) (m : Message), m.type = MsgSet →
      HStep st now m = some ({ st with ready := true }, [], [m], [])) ∧
    (∀ (st : HState) (now : Int) (m : Message), m.type = MsgInternal →
      m.SubType = some (.internal I_GATEWAY_READY) →
      HStep st now m = some ({ st with ready := true }, [], [m],
        [LogEvent.gatewayReady])) ∧
    (∀ (st : HState) (now : Int) (ms : List Message)
      (res : HState × List Message × List Message × List LogEvent),
      st.ready = true → HRun st now ms = some res → res.1.ready = true) ∧
    (∀ (st : HState) (now : Int) (m : Message) (r0 : Message),
      st.ready = true → m.type = MsgInternal →
      m.SubType = some (.internal I_ID_REQUEST) → m.Copy = some r0 →
      HStep st now m = some (st,
        [{ r0 with
           SubType := some (.internal I_ID_RESPONSE),
           Payload := toString st.network.NextNodeID }],
        [], [])) := by
  have hpi : ∀ (st : HState) (now : Int) (m : Message) (r0 : Message),
      m.SubType = some (.internal I_ID_REQUEST) → m.Copy = some r0 →
      processInternal st now m = some (st,
        some { r0 with
          SubType := some (.internal I_ID_RESPONSE),
          Payload := toString st.network.NextNodeID },
        [], []) := by
    intro st now m r0 hsub hcopy
    unfold processInternal
    simp only [hsub]
    rw [if_true, hcopy]
  refine ⟨?_, ?_, ?_, ?_, ?_⟩
  · intro st now m r0 hready htype hsub hcopy
    refine ⟨hpi st now m r0 hsub hcopy, ?_⟩
    unfold HStep
    rw [htype, if_pos rfl, hpi st now m r0 hsub hcopy]
    simp [hready]
  · intro st now m htype
    unfold HStep
    rw [htype, if_neg (by decide), if_pos rfl]
  · intro st now m htype hsub
    have hpg : processInternal st now m =
        some ({ st with ready := true }, none, [m], [LogEvent.gatewayReady]) := by
      unfold processInternal
      simp only [hsub]
      rw [if_neg (by decide), if_neg (by decide), if_true]
    unfold HStep
    rw [htype, if_pos rfl, hpg]
  · intro st now ms res hr h
    exact HRun_ready_mono ms st res hr h
  · intro st now m r0 hready htype hsub hcopy
    unfold HStep
    rw [htype, if_pos rfl, hpi st now m r0 hsub hcopy]
    simp [hready]

/-- A Set message for the C4 witness. -/
def setTempMsg : Message :=
  { NodeID := 4, ChildSensorID := 1, type := 1, Ack := 0,
    SubType := some (.setReq 0), Payload := "21.5" }

/-- A `GATEWAY_READY` message for the C4 witness. -/
def gatewayReadyMsg : Message :=
  { NodeID := 0, ChildSensorID := 255, type := 3, Ack := 0,
    SubType := some (.internal 14), Payload := "" }

/-- Witness for C4 at concrete states and messages: the suppressed reply
in `NOT_READY`, both transitions to `READY`, monotonicity over a concrete
sequence, and the written reply in `READY`. -/
theorem C4_readiness_gate_witness :
    (processInternal ⟨false, ⟨[]⟩⟩ 0 idRequestMsg = some (⟨false, ⟨[]⟩⟩,
        some idResponseOneMsg, [], []) ∧
      HStep ⟨false, ⟨[]⟩⟩ 0 idRequestMsg = some (⟨false, ⟨[]⟩⟩, [], [], [])) ∧
    HStep ⟨false, ⟨[]⟩⟩ 0 setTempMsg =
      some (⟨true, ⟨[]⟩⟩, [], [setTempMsg], []) ∧
    HStep ⟨false, ⟨[]⟩⟩ 0 gatewayReadyMsg =
      some (⟨true, ⟨[]⟩⟩, [], [gatewayReadyMsg], [LogEvent.gatewayReady]) ∧
    (∀ res, HRun ⟨true, ⟨[]⟩⟩ 0 [setTempMsg, idRequestMsg] = some res →
      res.1.ready = true) ∧
    HStep ⟨true, ⟨[]⟩⟩ 0 idRequestMsg =
      some (⟨true, ⟨[]⟩⟩, [idResponseOneMsg], [], []) :=
  ⟨C4_readiness_gate.1 ⟨false, ⟨[]⟩⟩ 0 idRequestMsg idRequestMsg rfl rfl rfl
      (by decide),
   C4_readiness_gate.2.1 ⟨false, ⟨[]⟩⟩ 0 setTempMsg rfl,
   C4_readiness_gate.2.2.1 ⟨false, ⟨[]⟩⟩ 0 gatewayReadyMsg rfl rfl,
   fun res h => C4_readiness_gate.2.2.2.1 ⟨true, ⟨[]⟩⟩ 0
     [setTempMsg, idRequestMsg] res rfl h,
   C4_readiness_gate.2.2.2.2 ⟨true, ⟨[]⟩⟩ 0 idRequestMsg idRequestMsg rfl rfl
     rfl (by decide)⟩

/-! ### C5 / C6 / C9: Sensor behaviour -/

theorem alGet_alPut_self {α : Type} (k : String) (v : α) (l : List (String × α)) :
    alGet k (alPut k v l) = some v := by
  induction l with
  | nil => simp [alGet, alPut]
  | cons p rest ih =>
    obtain ⟨k', v'⟩ := p
    by_cases h : k' = k
    · simp [alPut, h, alGet]
    · simp [alPut, h, alGet, ih]

theorem alGet_alPut_ne {α : Type} (k k' : String) (v : α) (l : List (String × α))
    (h : ¬ k = k') : alGet k' (alPut k v l) = alGet k' l := by
  induction l with
  | nil => simp [alGet, alPut, h]
  | cons p rest ih =>
    obtain ⟨a, b⟩ := p
    by_cases ha : a = k
    · subst ha
      simp [alPut, alGet, h, ih]
    · simp [alPut, alGet, ha, ih]

/-- The value stored by the Set case (`Var.Set` with a discarded error)
never changes the variable's kind tag. -/
theorem varSet_keep_typ (v : Var) (val : String) :
    (match v.Set val with | .ok w => w | .error _ => v).typ = v.typ := by
  unfold Var.Set
  split_ifs with h1 h2
  · rfl
  · cases goParseFloat val <;> rfl
  · rfl

/-- C5.  A Req message makes the sensor reply with a copy of the request
whose payload is the stringified current value of the requested Variable
(the string "0" if absent), sent on the shared transmit channel; the
stored Variables are unchanged (only the sensor `ID` is overwritten).
The sensor step does not consult the Handler's readiness flag at all, so
this path is not gated by it. -/
theorem C5_req_reply (s : Sensor) (nodeLoc : String) (nodeID : Nat)
    (m : Message) (v : Nat) (key : String) (r0 : Message)
    (htype : m.type = MsgReq) (hsub : m.SubType = some (.setReq v))
    (hkey : subTypeSetReqString v = some key) (hcopy : m.Copy = some r0) :
    Sensor.HandleMessage s nodeLoc nodeID m = some
      { sensor := { s with ID := m.ChildSensorID },
        tx := [{ r0 with
          SubType := some (.setReq v),
          Payload :=
            match alGet key s.Vars with
            | some w => w.Value
            | none => "0" }],
        emits := [], logs := [.req m] } := by
  simp [Sensor.HandleMessage, htype, hsub, hkey, hcopy, MsgPresentation,
    MsgSet, MsgReq]

/-- A Req message for `V_TEMP` on node 4, sensor 1. -/
def reqTempMsg : Message :=
  { NodeID := 4, ChildSensorID := 1, type := 2, Ack := 0,
    SubType := some (.setReq 0), Payload := "" }

/-- Witness for C5: a Req for an absent variable replies "0". -/
theorem C5_req_reply_witness :
    Sensor.HandleMessage NewSensor "attic" 4 reqTempMsg = some
      { sensor := { NewSensor with ID := reqTempMsg.ChildSensorID },
        tx := [{ reqTempMsg with
          SubType := some (.setReq 0),
          Payload :=
            match alGet "V_TEMP" NewSensor.Vars with
            | some w => w.Value
            | none => "0" }],
        emits := [], logs := [.req reqTempMsg] } :=
  C5_req_reply NewSensor "attic" 4 reqTempMsg 0 "V_TEMP" reqTempMsg
    rfl rfl (by decide) (by decide)

/-- C6 (amended).  On a Set message whose payload does not parse as a
float, an existing Float-classified Variable keeps its stored float value
(only the `SubType` bookkeeping field is rewritten), the handler still
returns success, the gauge is still emitted with the *old* value — and,
contrary to the claim, nothing is logged about the failure: `Var.Set`'s
error is discarded and the only log line is the ordinary `SET:` info
line, the same one emitted on success. -/
theorem C6_bad_float_payload (s : Sensor) (loc : String) (nid : Nat)
    (m : Message) (v : Nat) (key : String) (w : Var)
    (htype : m.type = MsgSet) (hsub : m.SubType = some (.setReq v))
    (hkey : subTypeSetReqString v = some key)
    (hvar : alGet key s.Vars = some w) (hfloat : w.typ = varFloat)
    (hbad : goParseFloat m.Payload = none) :
    Sensor.HandleMessage s loc nid m = some
      { sensor := { s with
          ID := m.ChildSensorID,
          Vars := alPut key { w with SubType := v } s.Vars },
        tx := [],
        emits := [Emit.gaugeSet v [loc, toString nid, toString m.ChildSensorID]
          w.FloatVal],
        logs := [.set m] } := by
  simp [Sensor.HandleMessage, Var.Set, htype, hsub, hkey, hvar, hfloat, hbad,
    varFloat, varString, MsgPresentation, MsgSet]

/-- A sensor holding a Float `V_TEMP` variable with value 21.5. -/
def tempSensor : Sensor :=
  { ID := 1, Presentation := 0,
    Vars := [("V_TEMP",
      { Name := "", typ := varFloat, SubType := 0, FloatVal := ⟨215, -1⟩,
        StringVal := "" })],
    nodeAttached := true }

/-- A Set message with a non-numeric payload. -/
def badSetMsg : Message :=
  { NodeID := 4, ChildSensorID := 1, type := 1, Ack := 0,
    SubType := some (.setReq 0), Payload := "abc" }

/-- C6 counterexample.  The claim says the float-parse failure is logged;
in fact `Sensor.HandleMessage` discards `Var.Set`'s error and succeeds,
and its log output on the failing message is exactly the single ordinary
`SET:` info line — the same kind of line as on success — so no failure is
logged (the stored value 21.5 is indeed left intact, and the gauge is even
re-emitted with it). -/
theorem C6_failure_not_logged :
    Sensor.HandleMessage tempSensor "attic" 4 badSetMsg = some
      { sensor := { tempSensor with
          ID := 1,
          Vars := [("V_TEMP",
            { Name := "", typ := varFloat, SubType := 0, FloatVal := ⟨215, -1⟩,
              StringVal := "" })] },
        tx := [],
        emits := [Emit.gaugeSet 0 ["attic", "4", "1"] ⟨215, -1⟩],
        logs := [LogEvent.set badSetMsg] } ∧
    (Sensor.HandleMessage tempSensor "attic" 4
        { badSetMsg with Payload := "22.0" }).map SensorResult.logs =
      some [LogEvent.set { badSetMsg with Payload := "22.0" }] := by
  constructor
  · decide
  · decide

/-- Witness for C6 at the concrete failing input. -/
theorem C6_bad_float_payload_witness :
    Sensor.HandleMessage tempSensor "attic" 4 badSetMsg = some
      { sensor := { tempSensor with
          ID := badSetMsg.ChildSensorID,
          Vars := alPut "V_TEMP"
            { Name := "", typ := varFloat, SubType := 0, FloatVal := ⟨215, -1⟩,
              StringVal := "" }
            tempSensor.Vars },
        tx := [],
        emits := [Emit.gaugeSet 0
          ["attic", toString 4, toString badSetMsg.ChildSensorID] ⟨215, -1⟩],
        logs := [.set badSetMsg] } :=
  C6_bad_float_payload tempSensor "attic" 4 badSetMsg 0 "V_TEMP"
    { Name := "", typ := varFloat, SubType := 0, FloatVal := ⟨215, -1⟩,
      StringVal := "" }
    rfl rfl (by decide) (by decide) rfl (by decide)

/-! ### C9: variable kinds -/

/-- The float-classified Set/Req subtypes, as the spec lists them. -/
def floatSubtypes : List Nat :=
  [V_TEMP, V_HUM, V_PRESSURE, V_LEVEL, V_VOLUME, V_VOLTAGE, V_LIGHT_LEVEL]

theorem floatClassified_iff (v : Nat) :
    floatClassified v = true ↔ v ∈ floatSubtypes := by
  simp [floatClassified, floatSubtypes]
  tauto

/-- Any message processed by `Sensor.HandleMessage` preserves the kind tag
of every existing Variable. -/
theorem sensor_preserves_var_typ (s : Sensor) (loc : String) (nid : Nat)
    (m : Message) (key : String) (w : Var)
    (res : SensorResult) (hvar : alGet key s.Vars = some w)
    (hres : Sensor.HandleMessage s loc nid m = some res) :
    ∃ w', alGet key res.sensor.Vars = some w' ∧ w'.typ = w.typ := by
  simp only [Sensor.HandleMessage] at hres
  by_cases h1 : m.type = MsgPresentation
  · rw [if_pos h1] at hres
    rcases hsub : m.SubType with _ | sv
    · rw [hsub] at hres; cases hres
    · rcases sv with pv | sv | iv
      · rw [hsub] at hres
        cases hres
        exact ⟨w, hvar, rfl⟩
      · rw [hsub] at hres; cases hres
      · rw [hsub] at hres; cases hres
  · rw [if_neg h1] at hres
    by_cases h2 : m.type = MsgSet
    · rw [if_pos h2] at hres
      rcases hsub : m.SubType with _ | sv
      · rw [hsub] at hres; cases hres
      · rcases sv with pv | sv | iv
        · rw [hsub] at hres; cases hres
        · simp only [hsub] at hres
          cases hkey : subTypeSetReqString sv with
          | none => rw [hkey] at hres; cases hres
          | some key2 =>
            rw [hkey] at hres
            cases hres
            by_cases hk : key2 = key
            · subst hk
              refine ⟨_, alGet_alPut_self _ _ _, ?_⟩
              simp [varSet_keep_typ, hvar]
            · rw [alGet_alPut_ne _ _ _ _ hk]
              exact ⟨w, hvar, rfl⟩
        · rw [hsub] at hres; cases hres
    · rw [if_neg h2] at hres
      by_cases h3 : m.type = MsgReq
      · rw [if_pos h3] at hres
        rcases hsub : m.SubType with _ | sv
        · rw [hsub] at hres; cases hres
        · rcases sv with pv | sv | iv
          · rw [hsub] at hres; cases hres
          · simp only [hsub] at hres
            cases hkey : subTypeSetReqString sv with
            | none => rw [hkey] at hres; cases hres
            | some key2 =>
              rw [hkey] at hres
              cases hcopy : m.Copy with
              | none => rw [hcopy] at hres; cases hres
              | some r0 =>
                rw [hcopy] at hres
                cases hres
                exact ⟨w, hvar, rfl⟩
          · rw [hsub] at hres; cases hres
      · rw [if_neg h3] at hres
        cases hres
        exact ⟨w, hvar, rfl⟩

/-- C9.  (a) The Variable created by the first Set for a subtype is
Float-classified exactly for the subtypes {TEMP, HUM, PRESSURE, LEVEL,
VOLUME, VOLTAGE, LIGHT_LEVEL} and String-classified for every other
subtype; (b) once a Variable exists, no later message of any kind changes
its kind tag. -/
theorem C9_var_kind_fixed :
    (∀ (s : Sensor) (loc : String) (nid : Nat) (m : Message) (v : Nat)
      (key : String) (res : SensorResult),
      m.type = MsgSet → m.SubType = some (.setReq v) →
      subTypeSetReqString v = some key → alGet key s.Vars = none →
      Sensor.HandleMessage s loc nid m = some res →
      ∃ w, alGet key res.sensor.Vars = some w ∧
        (v ∈ floatSubtypes → w.typ = varFloat) ∧
        (v ∉ floatSubtypes → w.typ = varString)) ∧
    (∀ (s : Sensor) (loc : String) (nid : Nat) (m : Message) (key : String)
      (w : Var) (res : SensorResult),
      alGet key s.Vars = some w →
      Sensor.HandleMessage s loc nid m = some res →
      ∃ w', alGet key res.sensor.Vars = some w' ∧ w'.typ = w.typ) := by
  constructor
  · intro s loc nid m v key res htype hsub hkey hnone hres
    simp only [Sensor.HandleMessage, htype] at hres
    rw [if_neg (by decide), if_true] at hres
    simp only [hsub] at hres
    rw [hkey] at hres
    cases hres
    refine ⟨_, alGet_alPut_self _ _ _, ?_, ?_⟩
    · intro hmem
      have hcl : floatClassified v = true := (floatClassified_iff v).mpr hmem
      simp [varSet_keep_typ, hnone, hcl, newVar]
    · intro hmem
      have hcl : floatClassified v = false := by
        rcases Bool.eq_false_or_eq_true (floatClassified v) with h | h
        · exact absurd ((floatClassified_iff v).mp h) hmem
        · exact h
      simp [varSet_keep_typ, hnone, hcl, newVar]
  · exact fun s loc nid m key w res hvar hres =>
      sensor_preserves_var_typ s loc nid m key w res hvar hres

/-- Witness for C9: the first Set for `V_TEMP` creates a Float variable
(and `V_TEMP` is in the float set); a later Presentation message keeps
its kind. -/
theorem C9_var_kind_fixed_witness :
    (∃ w, alGet "V_TEMP" tempSensor.Vars = some w ∧
      (0 ∈ floatSubtypes → w.typ = varFloat) ∧
      (0 ∉ floatSubtypes → w.typ = varString)) ∧
    (∃ w', alGet "V_TEMP" tempSensor.Vars = some w' ∧
      w'.typ = varFloat) := by
  constructor
  · obtain ⟨w, hw, hfl, hstr⟩ :=
      C9_var_kind_fixed.1 NewSensor "attic" 4 setTempMsg 0 "V_TEMP"
        { sensor := tempSensor, tx := [],
          emits := [Emit.gaugeSet 0 ["attic", "4", "1"] ⟨215, -1⟩],
          logs := [.set setTempMsg] }
        rfl rfl (by decide) (by decide) (by decide)
    exact ⟨w, by simpa using hw, hfl, hstr⟩
  · obtain ⟨w', hw', htyp⟩ :=
      C9_var_kind_fixed.2 tempSensor "attic" 4
        { NodeID := 4, ChildSensorID := 1, type := 0, Ack := 0,
          SubType := some (.pres 6), Payload := "" }
        "V_TEMP"
        { Name := "", typ := varFloat, SubType := 0, FloatVal := ⟨215, -1⟩,
          StringVal := "" }
        { sensor := { tempSensor with ID := 1, Presentation := 6 }, tx := [],
          emits := [], logs := [.pres
            { NodeID := 4, ChildSensorID := 1, type := 0, Ack := 0,
              SubType := some (.pres 6), Payload := "" }] }
        (by decide) (by decide)
    exact ⟨w', by simpa using hw', by rw [htyp]⟩

/-! ### C7: NoChild messages -/

/-- C7.  A message addressed to `ChildSensorID` 255 with a non-Internal
type makes `Node.HandleMessage` return the modelling error; its effect is
skipped — no sensor is created (the `Sensors` map is unchanged) and none
of the battery/version/sketch fields change (only the node `ID` overwrite
and the packet counter happen, as for every message).  With type Internal,
the node-level fields are captured instead, without error. -/
theorem C7_nochild_internal_only (n : Node) (m : Message)
    (hc : m.ChildSensorID = NoChild) :
    (m.type ≠ MsgInternal →
      Node.HandleMessage n m = some
        { node := { n with ID := m.NodeID }, tx := [],
          emits := [Emit.rxPacket [toString m.NodeID, n.Location]],
          logs := [],
          err := some ("Unknown message to child id " ++ toString NoChild) }) ∧
    (m.type = MsgInternal → ∀ v, m.SubType = some (.internal v) →
      (v = I_BATTERY_LEVEL →
        Node.HandleMessage n m = some
          { node := { n with
              ID := m.NodeID,
              Battery := goParseInt32 m.Payload },
            tx := [],
            emits := [Emit.rxPacket [toString m.NodeID, n.Location],
              Emit.gaugeSet V_PERCENTAGE [n.Location, toString m.NodeID, "0"]
                ⟨goParseInt32 m.Payload, -2⟩],
            logs := [], err := none }) ∧
      (v = I_VERSION →
        Node.HandleMessage n m = some
          { node := { n with
              ID := m.NodeID,
              Version := m.Payload },
            tx := [],
            emits := [Emit.rxPacket [toString m.NodeID, n.Location]],
            logs := [], err := none }) ∧
      (v = I_SKETCH_NAME →
        Node.HandleMessage n m = some
          { node := { n with
              ID := m.NodeID,
              SketchName := m.Payload },
            tx := [],
            emits := [Emit.rxPacket [toString m.NodeID, n.Location]],
            logs := [], err := none }) ∧
      (v = I_SKETCH_VERSION →
        Node.HandleMessage n m = some
          { node := { n with
              ID := m.NodeID,
              SketchVersion := m.Payload },
            tx := [],
            emits := [Emit.rxPacket [toString m.NodeID, n.Location]],
            logs := [], err := none })) := by
  constructor
  · intro hti
    simp [Node.HandleMessage, hc, Node.handleNoChild, hti]
  · intro hti v hsub
    refine ⟨?_, ?_, ?_, ?_⟩ <;> intro hv <;> subst hv <;>
      simp [Node.HandleMessage, hc, Node.handleNoChild, hti, hsub,
        I_BATTERY_LEVEL, I_VERSION, I_SKETCH_NAME, I_SKETCH_VERSION,
        MsgInternal]

/-- A non-Internal message to the NoChild pseudo-sensor. -/
def badNoChildMsg : Message :=
  { NodeID := 4, ChildSensorID := 255, type := 1, Ack := 0,
    SubType := some (.setReq 0), Payload := "x" }

/-- A node-level version report. -/
def versionMsg : Message :=
  { NodeID := 4, ChildSensorID := 255, type := 3, Ack := 0,
    SubType := some (.internal 2), Payload := "2.0.1" }

/-- Witness for C7: the Set-to-255 message errors with no field change;
the Internal version message captures `Version`. -/
theorem C7_nochild_internal_only_witness :
    Node.HandleMessage NewNode badNoChildMsg = some
      { node := { NewNode with ID := badNoChildMsg.NodeID }, tx := [],
        emits := [Emit.rxPacket [toString badNoChildMsg.NodeID,
          NewNode.Location]],
        logs := [],
        err := some ("Unknown message to child id " ++ toString NoChild) } ∧
    Node.HandleMessage NewNode versionMsg = some
      { node := { NewNode with
          ID := versionMsg.NodeID,
          Version := versionMsg.Payload },
        tx := [],
        emits := [Emit.rxPacket [toString versionMsg.NodeID,
          NewNode.Location]],
        logs := [], err := none } :=
  ⟨(C7_nochild_internal_only NewNode badNoChildMsg rfl).1 (by decide),
   ((C7_nochild_internal_only NewNode versionMsg rfl).2 rfl 2 rfl).2.1 rfl⟩

/-! ### C8: LoadJson -/

/-- C8.  `LoadJson` on a missing file is not an error and leaves the
Network as it was (empty when starting fresh); on an existing file whose
content fails to decode it surfaces an error; on success every loaded
Node's back-reference to the Network and every loaded Sensor's
back-reference to its Node are reattached, with the node map's keys and
node IDs preserved. -/
theorem C8_load_json (net : Network) (decoded : Option Network) :
    (Network.LoadJson net false decoded = .ok net) ∧
    (Network.LoadJson net true none = .error ()) ∧
    (∀ d, decoded = some d →
      ∃ net', Network.LoadJson net true decoded = .ok net' ∧
        (∀ p ∈ net'.Nodes, p.2.netAttached = true ∧
          ∀ q ∈ p.2.Sensors, q.2.nodeAttached = true) ∧
        net'.Nodes.map (fun p => (p.1, p.2.ID)) =
          d.Nodes.map (fun p => (p.1, p.2.ID))) := by
  refine ⟨rfl, rfl, ?_⟩
  rintro d rfl
  refine ⟨_, rfl, ?_, by simp⟩
  rintro p hp
  simp only [Network.LoadJson, List.mem_map] at hp
  obtain ⟨q, hq, rfl⟩ := hp
  refine ⟨rfl, ?_⟩
  rintro r hr
  simp only [List.mem_map] at hr
  obtain ⟨t, ht, rfl⟩ := hr
  rfl

/-- A decoded network with one unattached node holding one unattached
sensor, as `json.Unmarshal` would produce it. -/
def decodedNet : Network :=
  ⟨[("4", { ID := 4, Battery := 90, Location := "attic", Version := "2.0",
            SketchName := "s", SketchVersion := "1",
            Sensors := [("1", { ID := 1, Presentation := 6, Vars := [],
                                nodeAttached := false })],
            netAttached := false })]⟩

/-- Witness for C8 at concrete inputs. -/
theorem C8_load_json_witness :
    Network.LoadJson ⟨[]⟩ false none = .ok ⟨[]⟩ ∧
    Network.LoadJson ⟨[]⟩ true none = .error () ∧
    (∃ net', Network.LoadJson ⟨[]⟩ true (some decodedNet) = .ok net' ∧
      (∀ p ∈ net'.Nodes, p.2.netAttached = true ∧
        ∀ q ∈ p.2.Sensors, q.2.nodeAttached = true) ∧
      net'.Nodes.map (fun p => (p.1, p.2.ID)) =
        decodedNet.Nodes.map (fun p => (p.1, p.2.ID))) :=
  ⟨(C8_load_json ⟨[]⟩ none).1, (C8_load_json ⟨[]⟩ none).2.1,
   (C8_load_json ⟨[]⟩ (some decodedNet)).2.2 decodedNet rfl⟩

end MySensors
